import Mathlib

/-
  Verification of the KPI audit engine of DashboardIntelligence.

  The repository ships a Streamlit UI (app.py) that drives a classification
  core imported from a companion module (identify_vanity_metrics,
  identify_valuable_metrics, get_top_metrics_by_department,
  calculate_metric_impact_score, get_metrics_to_remove).  The UI layer is
  embedded from app.py directly; the classification core, whose module is not
  part of the excerpt, is modelled from the design document (spec.md).
-/

/-- A metric record as handed to the core by ingestion: the seven base fields
with booleans already normalized and temporal descriptors kept as recency
buckets (spec section 3). -/
structure MetricRecord where
  Department : String
  Metric_Name : String
  Visible_in_Dashboard : Bool
  Used_in_Decision_Making : Bool
  Executive_Requested : Bool
  Last_Reviewed : String
  Metric_Last_Used_For_Decision : String
  Interpretation_Notes : String
  deriving DecidableEq

/-- Modelled from the spec: the normalized "comparable recency representation"
of a temporal descriptor (spec section 6; glossary "recency bucket").  Smaller
means more recent; an unparseable descriptor is treated as the conservative
"never" end of the domain (spec section 7, Ambiguous-field). -/
def recencyRank (s : String) : Nat :=
  if s = "this week" then 0
  else if s = "this month" then 1
  else if s = "last month" then 2
  else if s = "this quarter" then 3
  else if s = "3 months ago" then 4
  else if s = "6 months ago" then 5
  else if s = "1 year ago" then 6
  else 7

/-- Modelled from the spec: the staleness threshold of sections 4.1 rules 2-3
(default "no use recorded in the last 2 review cycles, or value is never").
The specific cutoff is a configurable default (spec section 9, open question). -/
def staleTemporal (s : String) : Bool :=
  decide (4 ≤ recencyRank s)

/-- Modelled from the spec: the freshness window of section 4.2 rule 2
(default "used within the last review cycle"). -/
def freshTemporal (s : String) : Bool :=
  decide (recencyRank s ≤ 1)

/-- Modelled from the spec: vanity rule 1, "Visible-but-unused" (weight 3). -/
def vanityRule1 (r : MetricRecord) : Bool :=
  r.Visible_in_Dashboard && !r.Used_in_Decision_Making

/-- Modelled from the spec: vanity rule 2, "Stale decision use" (weight 2). -/
def vanityRule2 (r : MetricRecord) : Bool :=
  staleTemporal r.Metric_Last_Used_For_Decision

/-- Modelled from the spec: vanity rule 3, "Stale review" (weight 1). -/
def vanityRule3 (r : MetricRecord) : Bool :=
  staleTemporal r.Last_Reviewed

/-- Modelled from the spec: vanity rule 4, "Executive vanity" (weight 2). -/
def vanityRule4 (r : MetricRecord) : Bool :=
  r.Executive_Requested && !r.Used_in_Decision_Making

/-- Modelled from the spec: vanity score, the sum of the triggered vanity-rule
weights (spec section 4.1). -/
def vanityScore (r : MetricRecord) : Nat :=
  (if vanityRule1 r then 3 else 0) + (if vanityRule2 r then 2 else 0) +
  (if vanityRule3 r then 1 else 0) + (if vanityRule4 r then 2 else 0)

/-- Modelled from the spec: one reason string per triggered vanity rule, in
rule-evaluation order (spec section 4.1). -/
def vanityReasons (r : MetricRecord) : List String :=
  (if vanityRule1 r then ["Displayed but not used for decisions."] else []) ++
  (if vanityRule2 r then ["Not used for a decision in a long time."] else []) ++
  (if vanityRule3 r then ["Has not been reviewed recently."] else []) ++
  (if vanityRule4 r then ["Requested by leadership but never used in decisions."] else [])

/-- Modelled from the spec: a record is vanity iff its vanity score reaches the
threshold 3 (spec section 4.1). -/
def isVanity (r : MetricRecord) : Bool :=
  decide (3 ≤ vanityScore r)

/-- Modelled from the spec: value rule 1, "Active decision driver" (weight 3). -/
def valueRule1 (r : MetricRecord) : Bool :=
  r.Used_in_Decision_Making

/-- Modelled from the spec: value rule 2, "Recent use" (weight 2). -/
def valueRule2 (r : MetricRecord) : Bool :=
  freshTemporal r.Metric_Last_Used_For_Decision

/-- Modelled from the spec: value rule 3, "Aligned executive interest" (weight 1). -/
def valueRule3 (r : MetricRecord) : Bool :=
  r.Executive_Requested && r.Used_in_Decision_Making

/-- Modelled from the spec: value rule 4, "Hidden gem" (weight 2). -/
def valueRule4 (r : MetricRecord) : Bool :=
  !r.Visible_in_Dashboard && r.Used_in_Decision_Making

/-- Modelled from the spec: value score, the sum of the triggered value-rule
weights (spec section 4.2). -/
def valueScore (r : MetricRecord) : Nat :=
  (if valueRule1 r then 3 else 0) + (if valueRule2 r then 2 else 0) +
  (if valueRule3 r then 1 else 0) + (if valueRule4 r then 2 else 0)

/-- Modelled from the spec: one reason string per triggered value rule, in
rule-evaluation order (spec section 4.2). -/
def valueReasons (r : MetricRecord) : List String :=
  (if valueRule1 r then ["Actively used in decision-making."] else []) ++
  (if valueRule2 r then ["Recently used for a decision."] else []) ++
  (if valueRule3 r then ["Aligned with leadership priorities and actually used."] else []) ++
  (if valueRule4 r then ["Drives decisions despite not being on a dashboard."] else [])

/-- A record after the vanity classifier has run (spec section 4.1 output). -/
structure VanityAnnotated where
  base : MetricRecord
  vanity_score : Nat
  vanity_reasons : List String
  is_vanity : Bool
  deriving DecidableEq

/-- Modelled from the spec: per-record action of the vanity classifier
(spec section 4.1, contract of classify_vanity). -/
def classifyVanityRecord (r : MetricRecord) : VanityAnnotated :=
  { base := r, vanity_score := vanityScore r,
    vanity_reasons := vanityReasons r, is_vanity := isVanity r }

/-- Modelled from the spec: the vanity classifier, called
identify_vanity_metrics by app.py (line 122). -/
def identify_vanity_metrics (df : List MetricRecord) : List VanityAnnotated :=
  df.map classifyVanityRecord

/-- A fully annotated record, after both classifiers (spec section 3,
derived annotations). -/
structure AnnotatedRecord where
  base : MetricRecord
  vanity_score : Nat
  vanity_reasons : List String
  is_vanity : Bool
  value_score : Nat
  value_reasons : List String
  is_high_value : Bool
  deriving DecidableEq

/-- Modelled from the spec: per-record action of the value classifier.  The
mutual-exclusion tie-break forces is_high_value false whenever the raw vanity
classification is true (spec section 4.2). -/
def classifyValueRecord (v : VanityAnnotated) : AnnotatedRecord :=
  { base := v.base, vanity_score := v.vanity_score,
    vanity_reasons := v.vanity_reasons, is_vanity := v.is_vanity,
    value_score := valueScore v.base, value_reasons := valueReasons v.base,
    is_high_value := decide (3 ≤ valueScore v.base) && !v.is_vanity }

/-- Modelled from the spec: the value classifier, called
identify_valuable_metrics by app.py (line 123); it consumes the output of the
vanity classifier. -/
def identify_valuable_metrics (vdf : List VanityAnnotated) : List AnnotatedRecord :=
  vdf.map classifyValueRecord

/-- The full analysis pipeline as run by app.py lines 122-123. -/
def analyzeTable (df : List MetricRecord) : List AnnotatedRecord :=
  identify_valuable_metrics (identify_vanity_metrics df)

/-- The scenario record of spec section 8, first scenario. -/
def sampleVanity : MetricRecord :=
  { Department := "Marketing", Metric_Name := "Social Media Followers",
    Visible_in_Dashboard := true, Used_in_Decision_Making := false,
    Executive_Requested := true, Last_Reviewed := "never",
    Metric_Last_Used_For_Decision := "never", Interpretation_Notes := "" }

/-- The scenario record of spec section 8, second scenario, parameterized by
the Last_Reviewed field the scenario leaves unspecified. -/
def sampleValue (lr : String) : MetricRecord :=
  { Department := "Operations", Metric_Name := "Order Fulfillment Time",
    Visible_in_Dashboard := false, Used_in_Decision_Making := true,
    Executive_Requested := false, Last_Reviewed := lr,
    Metric_Last_Used_For_Decision := "this week", Interpretation_Notes := "" }


/-- Modelled from the spec: one record of the impact scorer's output
(spec section 4.3): the annotated record together with its impact score. -/
structure ImpactAnnotated where
  ann : AnnotatedRecord
  impact_score : Int
  deriving DecidableEq

/-- Modelled from the spec: per-record impact scoring, a pure function
computing value score minus vanity score with no thresholding and no derived
boolean (spec section 4.3). -/
def scoreImpactRecord (a : AnnotatedRecord) : ImpactAnnotated :=
  { ann := a, impact_score := (a.value_score : Int) - (a.vanity_score : Int) }

/-- Modelled from the spec: the impact scorer, called
calculate_metric_impact_score by app.py (line 128). -/
def calculate_metric_impact_score (adf : List AnnotatedRecord) : List ImpactAnnotated :=
  adf.map scoreImpactRecord

/-- Modelled from the spec: the ranking key of the department ranker
(spec section 4.4): descending value score, ties by recency of last decision
use (more recent wins), then metric name ascending — encoded as an ascending
lexicographic key whose first component negates the value score. -/
def rankKey (a : AnnotatedRecord) : Lex (Int × Lex (Nat × String)) :=
  toLex (-(a.value_score : Int),
    toLex (recencyRank a.base.Metric_Last_Used_For_Decision, a.base.Metric_Name))

/-- The sort relation of the department ranker. -/
def rankRel (a b : AnnotatedRecord) : Prop :=
  rankKey a ≤ rankKey b

instance : DecidableRel rankRel :=
  fun a b => inferInstanceAs (Decidable (rankKey a ≤ rankKey b))

instance : IsTotal AnnotatedRecord rankRel :=
  ⟨fun a b => le_total (rankKey a) (rankKey b)⟩

instance : IsTrans AnnotatedRecord rankRel :=
  ⟨fun _ _ _ hab hbc => le_trans hab hbc⟩

/-- Modelled from the spec: the high-value records of one department
(spec section 4.4, partition and filter step). -/
def deptHighValue (adf : List AnnotatedRecord) (dept : String) : List AnnotatedRecord :=
  adf.filter (fun a => a.base.Department == dept && a.is_high_value)

/-- Modelled from the spec: one department's ranked top-n sequence
(spec section 4.4, sort and truncate step). -/
def rankDept (adf : List AnnotatedRecord) (dept : String) (n : Nat) : List AnnotatedRecord :=
  ((deptHighValue adf dept).insertionSort rankRel).take n

/-- The departments appearing in a table, in first-appearance order. -/
def departmentsOf (adf : List AnnotatedRecord) : List String :=
  (adf.map (fun a => a.base.Department)).dedup

/-- Modelled from the spec: the department ranker, called
get_top_metrics_by_department by app.py (line 126).  A non-positive n is an
invalid-argument failure naming the parameter, never silently clamped
(spec sections 4.4 and 7); otherwise every department of the input is a key of
the returned mapping, a department with no high-value records mapping to the
empty sequence. -/
def get_top_metrics_by_department (adf : List AnnotatedRecord) (n : Int) :
    Except String (List (String × List AnnotatedRecord)) :=
  if n ≤ 0 then Except.error "invalid argument: n must be at least 1"
  else Except.ok ((departmentsOf adf).map (fun d => (d, rankDept adf d n.toNat)))

/-- Modelled from the spec: the removal recommender's sort key
(spec section 4.5): descending vanity score, ties by department then metric
name ascending. -/
def removeKey (a : AnnotatedRecord) : Lex (Int × Lex (String × String)) :=
  toLex (-(a.vanity_score : Int), toLex (a.base.Department, a.base.Metric_Name))

/-- The sort relation of the removal recommender. -/
def removeRel (a b : AnnotatedRecord) : Prop :=
  removeKey a ≤ removeKey b

instance : DecidableRel removeRel :=
  fun a b => inferInstanceAs (Decidable (removeKey a ≤ removeKey b))

instance : IsTotal AnnotatedRecord removeRel :=
  ⟨fun a b => le_total (removeKey a) (removeKey b)⟩

instance : IsTrans AnnotatedRecord removeRel :=
  ⟨fun _ _ _ hab hbc => le_trans hab hbc⟩

/-- Modelled from the spec: the removal recommender, called
get_metrics_to_remove by app.py (line 127): the dashboard-visible vanity
metrics, ordered by the removal key (spec section 4.5). -/
def get_metrics_to_remove (adf : List AnnotatedRecord) : List AnnotatedRecord :=
  (adf.filter (fun a => a.is_vanity && a.base.Visible_in_Dashboard)).insertionSort removeRel

/-- A raw record at the presentation boundary of app.py: the boolean-like base
fields are still the CSV strings (app.py lines 496-507 document the Yes/No
encoding). -/
structure RawRecord where
  Department : String
  Metric_Name : String
  Visible_in_Dashboard : String
  Used_in_Decision_Making : String
  Executive_Requested : String
  Last_Reviewed : String
  Metric_Last_Used_For_Decision : String
  Interpretation_Notes : String
  deriving DecidableEq

/-- app.py line 101: the dashboard-visible count over the raw table. -/
def visible_count (df : List RawRecord) : Nat :=
  (df.filter (fun r => r.Visible_in_Dashboard == "Yes")).length

/-- app.py line 102: the decision-use count over the raw table. -/
def decision_count (df : List RawRecord) : Nat :=
  (df.filter (fun r => r.Used_in_Decision_Making == "Yes")).length

/-- app.py lines 372-375: the per-row "already in dashboard" branch of the
recommendations tab (markdown decoration stripped). -/
def dashboardStatusLine (row : RawRecord) : String :=
  if row.Visible_in_Dashboard == "Yes" then "Already in dashboard"
  else "Not in dashboard - consider adding"

/-- app.py lines 411-417: the cleanup-summary dashboard total, over the whole
table when All Departments is selected (none) and over the department slice
otherwise (some dept). -/
def total_dashboard (adf : List RawRecord) (selected : Option String) : Nat :=
  match selected with
  | none => (adf.filter (fun r => r.Visible_in_Dashboard == "Yes")).length
  | some dept =>
      ((adf.filter (fun r => r.Department == dept)).filter
        (fun r => r.Visible_in_Dashboard == "Yes")).length

/-- The annotated form of the first scenario record (a vanity metric). -/
def annVanity : AnnotatedRecord :=
  classifyValueRecord (classifyVanityRecord sampleVanity)

/-- The annotated form of the second scenario record (a high-value metric),
with a fresh Last_Reviewed field. -/
def annValue : AnnotatedRecord :=
  classifyValueRecord (classifyVanityRecord (sampleValue "this week"))

/-- C1: in the annotated table, is_vanity and is_high_value are never both
true, and whenever the raw vanity classification of a record is true its
is_high_value is false regardless of value_score. -/
theorem vanity_high_value_mutual_exclusion :
    (∀ (df : List MetricRecord), ∀ a ∈ analyzeTable df,
      ¬(a.is_vanity = true ∧ a.is_high_value = true)) ∧
    (∀ r : MetricRecord, isVanity r = true →
      (classifyValueRecord (classifyVanityRecord r)).is_high_value = false) := by
  constructor
  · intro df a ha
    simp only [analyzeTable, identify_valuable_metrics, identify_vanity_metrics,
      List.map_map, List.mem_map, Function.comp] at ha
    obtain ⟨r, -, rfl⟩ := ha
    simp only [classifyValueRecord, classifyVanityRecord]
    rintro ⟨h1, h2⟩
    simp [h1] at h2
  · intro r hr
    simp [classifyValueRecord, classifyVanityRecord, hr]

theorem vanity_high_value_mutual_exclusion_witness :
    ¬(annVanity.is_vanity = true ∧ annVanity.is_high_value = true) ∧
    annVanity.is_high_value = false := by
  have T := vanity_high_value_mutual_exclusion
  exact ⟨T.1 [sampleVanity] annVanity (by decide), T.2 sampleVanity (by decide)⟩

/-- C2: the first scenario record fires all four vanity rules with weights
3, 2, 1 and 2, so its vanity score is 8, it is classified vanity, and it is
not high-value. -/
theorem vanity_scenario_fires_all_rules :
    vanityRule1 sampleVanity = true ∧ vanityRule2 sampleVanity = true ∧
    vanityRule3 sampleVanity = true ∧ vanityRule4 sampleVanity = true ∧
    vanityScore sampleVanity = 3 + 2 + 1 + 2 ∧ vanityScore sampleVanity = 8 ∧
    isVanity sampleVanity = true ∧ annVanity.is_vanity = true ∧
    annVanity.is_high_value = false := by
  decide

/-- C3: the second scenario record fires value rules 1, 2 and 4 (weights
3, 2 and 2) but not rule 3, so its value score is 7 and it is high-value,
while vanity rules 1 and 4 do not fire and, for any Last_Reviewed value that
is not stale, its vanity score is 0. -/
theorem value_scenario_hidden_gem (lr : String) (h : staleTemporal lr = false) :
    valueRule1 (sampleValue lr) = true ∧ valueRule2 (sampleValue lr) = true ∧
    valueRule4 (sampleValue lr) = true ∧ valueRule3 (sampleValue lr) = false ∧
    valueScore (sampleValue lr) = 7 ∧
    (classifyValueRecord (classifyVanityRecord (sampleValue lr))).is_high_value = true ∧
    vanityRule1 (sampleValue lr) = false ∧ vanityRule4 (sampleValue lr) = false ∧
    vanityScore (sampleValue lr) = 0 := by
  have h1 : vanityRule1 (sampleValue lr) = false := rfl
  have h2 : vanityRule2 (sampleValue lr) = false := rfl
  have h3 : vanityRule3 (sampleValue lr) = false := h
  have h4 : vanityRule4 (sampleValue lr) = false := rfl
  have hv : vanityScore (sampleValue lr) = 0 := by simp [vanityScore, h1, h2, h3, h4]
  have hval : valueScore (sampleValue lr) = 7 := rfl
  refine ⟨rfl, rfl, rfl, rfl, hval, ?_, h1, h4, hv⟩
  simp [classifyValueRecord, classifyVanityRecord, isVanity, hv, hval]

theorem value_scenario_hidden_gem_witness :
    staleTemporal "this week" = false ∧
    valueScore (sampleValue "this week") = 7 ∧
    vanityScore (sampleValue "this week") = 0 ∧
    (classifyValueRecord (classifyVanityRecord (sampleValue "this week"))).is_high_value = true := by
  have T := value_scenario_hidden_gem "this week" (by decide)
  exact ⟨by decide, T.2.2.2.2.1, T.2.2.2.2.2.2.2.2, T.2.2.2.2.2.1⟩

/-- C7: the impact scorer maps each annotated record to its value score minus
its vanity score, derives nothing else, and carries the record through
unchanged, in particular its is_vanity and is_high_value flags. -/
theorem impact_score_pure (adf : List AnnotatedRecord) (a : AnnotatedRecord) :
    calculate_metric_impact_score adf = adf.map scoreImpactRecord ∧
    (scoreImpactRecord a).impact_score = (a.value_score : Int) - (a.vanity_score : Int) ∧
    (scoreImpactRecord a).ann.is_vanity = a.is_vanity ∧
    (scoreImpactRecord a).ann.is_high_value = a.is_high_value ∧
    (scoreImpactRecord a).ann = a :=
  ⟨rfl, rfl, rfl, rfl, rfl⟩

/-- C8: changing only Used_in_Decision_Making to true on an otherwise-fixed
record never decreases the value score and never increases the vanity
score. -/
theorem used_flip_monotone (r : MetricRecord) :
    valueScore r ≤ valueScore { r with Used_in_Decision_Making := true } ∧
    vanityScore { r with Used_in_Decision_Making := true } ≤ vanityScore r := by
  obtain ⟨dept, name, vis, used, exec, lrv, mlufd, notes⟩ := r
  constructor <;>
    · simp only [valueScore, vanityScore, valueRule1, valueRule2, valueRule3, valueRule4,
        vanityRule1, vanityRule2, vanityRule3, vanityRule4]
      cases vis <;> cases used <;> cases exec <;> simp <;> split_ifs <;> omega

/-- C9: a non-positive n makes the department ranker fail with an
invalid-argument error naming the parameter; it never returns a (possibly
clamped) mapping. -/
theorem ranker_rejects_nonpositive_n (adf : List AnnotatedRecord) (n : Int) (hn : n ≤ 0) :
    get_top_metrics_by_department adf n =
      Except.error "invalid argument: n must be at least 1" := by
  simp [get_top_metrics_by_department, hn]

theorem ranker_rejects_nonpositive_n_witness :
    get_top_metrics_by_department [annVanity] 0 =
      Except.error "invalid argument: n must be at least 1" :=
  ranker_rejects_nonpositive_n [annVanity] 0 (by decide)

/-- The ranking relation spelt out: strictly greater value score wins, ties go
to the more recent decision use, then to the lexicographically smaller metric
name. -/
theorem rankRel_iff (a b : AnnotatedRecord) :
    rankRel a b ↔
      b.value_score < a.value_score ∨
      (a.value_score = b.value_score ∧
        (recencyRank a.base.Metric_Last_Used_For_Decision <
            recencyRank b.base.Metric_Last_Used_For_Decision ∨
          (recencyRank a.base.Metric_Last_Used_For_Decision =
              recencyRank b.base.Metric_Last_Used_For_Decision ∧
            a.base.Metric_Name ≤ b.base.Metric_Name))) := by
  simp [rankRel, rankKey, Prod.Lex.le_iff, neg_lt_neg_iff, neg_inj, Nat.cast_lt, Nat.cast_inj]

/-- The removal relation spelt out: strictly greater vanity score wins, ties
go to the lexicographically smaller department, then metric name. -/
theorem removeRel_iff (a b : AnnotatedRecord) :
    removeRel a b ↔
      b.vanity_score < a.vanity_score ∨
      (a.vanity_score = b.vanity_score ∧
        (a.base.Department < b.base.Department ∨
          (a.base.Department = b.base.Department ∧
            a.base.Metric_Name ≤ b.base.Metric_Name))) := by
  simp [removeRel, removeKey, Prod.Lex.le_iff, neg_lt_neg_iff, neg_inj, Nat.cast_lt,
    Nat.cast_inj]

/-- C4: every sequence in the ranker's mapping holds only high-value records
of its department, has length at most n and at most the number of high-value
records of that department, and is sorted descending by value score with ties
broken by recency of last decision use, then by metric name ascending. -/
theorem top_metrics_by_department_ranked (adf : List AnnotatedRecord) (n : Int)
    (hn : 1 ≤ n) (m : List (String × List AnnotatedRecord))
    (hm : get_top_metrics_by_department adf n = Except.ok m)
    (d : String) (seq : List AnnotatedRecord) (hd : (d, seq) ∈ m) :
    (∀ a ∈ seq, a.base.Department = d ∧ a.is_high_value = true) ∧
    seq.length ≤ n.toNat ∧
    seq.length ≤ (deptHighValue adf d).length ∧
    seq.Pairwise (fun a b =>
      b.value_score < a.value_score ∨
      (a.value_score = b.value_score ∧
        (recencyRank a.base.Metric_Last_Used_For_Decision <
            recencyRank b.base.Metric_Last_Used_For_Decision ∨
          (recencyRank a.base.Metric_Last_Used_For_Decision =
              recencyRank b.base.Metric_Last_Used_For_Decision ∧
            a.base.Metric_Name ≤ b.base.Metric_Name)))) := by
  have hpos : ¬ n ≤ 0 := by omega
  rw [get_top_metrics_by_department, if_neg hpos] at hm
  simp only [Except.ok.injEq] at hm
  subst hm
  simp only [List.mem_map, Prod.mk.injEq] at hd
  obtain ⟨d', -, rfl, rfl⟩ := hd
  refine ⟨?_, ?_, ?_, ?_⟩
  · intro a ha
    have h1 := List.mem_of_mem_take ha
    rw [List.mem_insertionSort, deptHighValue, List.mem_filter] at h1
    have h2 := h1.2
    simp only [Bool.and_eq_true, beq_iff_eq] at h2
    exact h2
  · simp [rankDept]
  · have := List.length_take_le (Int.toNat n) ((deptHighValue adf d').insertionSort rankRel)
    simp only [List.length_insertionSort] at this
    simp [rankDept, this]
  · have hs : ((deptHighValue adf d').insertionSort rankRel).Pairwise rankRel :=
      List.sorted_insertionSort rankRel (deptHighValue adf d')
    exact ((hs.sublist (List.take_sublist _ _)).imp fun hab => (rankRel_iff _ _).mp hab)

theorem top_metrics_by_department_ranked_witness :
    (annValue.base.Department = "Operations" ∧ annValue.is_high_value = true) ∧
    ([annValue] : List AnnotatedRecord).length ≤ (3 : Int).toNat ∧
    ([annValue] : List AnnotatedRecord).length ≤ (deptHighValue [annValue] "Operations").length := by
  have T := top_metrics_by_department_ranked [annValue] 3 (by decide)
    [("Operations", [annValue])] (by rfl) "Operations" [annValue] (by decide)
  exact ⟨T.1 annValue (by decide), T.2.1, T.2.2.1⟩

/-- C5: every department appearing in the input is a key of the ranker's
mapping, and a department none of whose records is high-value maps to the
empty sequence rather than being omitted. -/
theorem top_metrics_department_keys (adf : List AnnotatedRecord) (n : Int)
    (hn : 1 ≤ n) (m : List (String × List AnnotatedRecord))
    (hm : get_top_metrics_by_department adf n = Except.ok m) :
    (∀ a ∈ adf, ∃ seq, (a.base.Department, seq) ∈ m) ∧
    (∀ d seq, (d, seq) ∈ m →
      (∀ a ∈ adf, a.base.Department = d → a.is_high_value = false) → seq = []) := by
  have hpos : ¬ n ≤ 0 := by omega
  rw [get_top_metrics_by_department, if_neg hpos] at hm
  simp only [Except.ok.injEq] at hm
  subst hm
  constructor
  · intro a ha
    refine ⟨rankDept adf a.base.Department n.toNat, ?_⟩
    simp only [List.mem_map]
    refine ⟨a.base.Department, ?_, rfl⟩
    rw [departmentsOf, List.mem_dedup, List.mem_map]
    exact ⟨a, ha, rfl⟩
  · intro d seq hd hnone
    simp only [List.mem_map, Prod.mk.injEq] at hd
    obtain ⟨d', -, rfl, rfl⟩ := hd
    have hfil : deptHighValue adf d' = [] := by
      rw [deptHighValue, List.filter_eq_nil_iff]
      intro a ha
      simp only [Bool.and_eq_true, beq_iff_eq, not_and]
      intro hdep
      simp [hnone a ha hdep]
    simp [rankDept, hfil, List.insertionSort]

theorem top_metrics_department_keys_witness :
    (∃ seq, (annVanity.base.Department, seq) ∈
      [(("Marketing" : String), ([] : List AnnotatedRecord))]) ∧
    ([] : List AnnotatedRecord) = [] := by
  have T := top_metrics_department_keys [annVanity] 1 (by decide) [("Marketing", [])] (by rfl)
  exact ⟨T.1 annVanity (by decide), T.2 "Marketing" [] (by decide) (by decide)⟩

/-- C6: the removal recommendation holds exactly the dashboard-visible vanity
records of the input, ordered descending by vanity score with ties broken by
department then metric name ascending. -/
theorem metrics_to_remove_spec (adf : List AnnotatedRecord) :
    (∀ a ∈ get_metrics_to_remove adf,
      a.is_vanity = true ∧ a.base.Visible_in_Dashboard = true) ∧
    (∀ a ∈ adf, a.is_vanity = true → a.base.Visible_in_Dashboard = true →
      a ∈ get_metrics_to_remove adf) ∧
    (get_metrics_to_remove adf).Pairwise (fun a b =>
      b.vanity_score < a.vanity_score ∨
      (a.vanity_score = b.vanity_score ∧
        (a.base.Department < b.base.Department ∨
          (a.base.Department = b.base.Department ∧
            a.base.Metric_Name ≤ b.base.Metric_Name)))) := by
  refine ⟨?_, ?_, ?_⟩
  · intro a ha
    rw [get_metrics_to_remove, List.mem_insertionSort, List.mem_filter] at ha
    have h2 := ha.2
    simp only [Bool.and_eq_true] at h2
    exact h2
  · intro a ha h1 h2
    rw [get_metrics_to_remove, List.mem_insertionSort]
    exact List.mem_filter.mpr ⟨ha, by simp [h1, h2]⟩
  · have hs := List.sorted_insertionSort removeRel
      (adf.filter (fun a => a.is_vanity && a.base.Visible_in_Dashboard))
    exact hs.imp fun hab => (removeRel_iff _ _).mp hab

theorem metrics_to_remove_spec_witness :
    (annVanity.is_vanity = true ∧ annVanity.base.Visible_in_Dashboard = true) ∧
    annVanity ∈ get_metrics_to_remove [annVanity] := by
  have T := metrics_to_remove_spec [annVanity]
  exact ⟨T.1 annVanity (by decide), T.2.1 annVanity (by decide) (by decide) (by decide)⟩

/-- String equality via == agrees with propositional equality. -/
theorem string_beq_decide (s t : String) : (s == t) = decide (s = t) := by
  by_cases h : s = t <;> simp [h]

/-- A raw record whose boolean-like fields use encodings other than the exact
string Yes. -/
def sampleRaw : RawRecord :=
  { Department := "Sales", Metric_Name := "Email Opens",
    Visible_in_Dashboard := "yes", Used_in_Decision_Making := "True",
    Executive_Requested := "", Last_Reviewed := "never",
    Metric_Last_Used_For_Decision := "never", Interpretation_Notes := "" }

/-- C10: every count and branch app.py takes over the boolean-like string
fields treats a record as positive exactly when the field is the literal
string Yes; any other value, such as a lowercase yes, a Python True, or an
empty string, falls into the negative case. -/
theorem yes_literal_boundary :
    (∀ df : List RawRecord,
      visible_count df = df.countP (fun r => decide (r.Visible_in_Dashboard = "Yes")) ∧
      decision_count df = df.countP (fun r => decide (r.Used_in_Decision_Making = "Yes")) ∧
      total_dashboard df none = df.countP (fun r => decide (r.Visible_in_Dashboard = "Yes"))) ∧
    (∀ (df : List RawRecord) (d : String),
      total_dashboard df (some d) =
        df.countP (fun r => decide (r.Visible_in_Dashboard = "Yes" ∧ r.Department = d))) ∧
    (∀ row : RawRecord,
      (dashboardStatusLine row = "Already in dashboard" ↔ row.Visible_in_Dashboard = "Yes")) ∧
    (∀ row : RawRecord, row.Visible_in_Dashboard ≠ "Yes" →
      visible_count [row] = 0 ∧
      dashboardStatusLine row = "Not in dashboard - consider adding") ∧
    (∀ row : RawRecord, row.Used_in_Decision_Making ≠ "Yes" → decision_count [row] = 0) := by
  refine ⟨?_, ?_, ?_, ?_, ?_⟩
  · intro df
    refine ⟨?_, ?_, ?_⟩ <;>
      simp only [visible_count, decision_count, total_dashboard,
        List.countP_eq_length_filter, string_beq_decide]
  · intro df d
    simp only [total_dashboard, List.countP_eq_length_filter, List.filter_filter,
      Bool.decide_and, string_beq_decide]
  · intro row
    by_cases h : row.Visible_in_Dashboard = "Yes" <;> simp [dashboardStatusLine, h]
  · intro row h
    constructor
    · simp [visible_count, h]
    · simp [dashboardStatusLine, h]
  · intro row h
    simp [decision_count, h]

theorem yes_literal_boundary_witness :
    visible_count [sampleRaw] = 0 ∧
    dashboardStatusLine sampleRaw = "Not in dashboard - consider adding" ∧
    decision_count [sampleRaw] = 0 := by
  have T := yes_literal_boundary
  exact ⟨(T.2.2.2.1 sampleRaw (by decide)).1, (T.2.2.2.1 sampleRaw (by decide)).2,
    T.2.2.2.2 sampleRaw (by decide)⟩
